import Mathlib

/-!
Verification of `Excel_file_automation.py` against its specification.

The Python program is embedded shallowly:
* `find_longest_shortest` mirrors the source function of the same name;
  Python `max(xs, key=len)` / `min(xs, key=len)` are left folds that keep
  the current best on ties (CPython replaces the best only on a strictly
  better key), so the first-encountered extremal element wins.
* Cell values are modelled by `Value` with Python truthiness.
* The workflow of `main` (setup_browser, load_workbook, get_today_sheet,
  the row loop, workbook.save, the except/finally blocks) is modelled as
  a function from an environment (outcomes of the external calls) to a
  run result recording console prints, saves, quit calls, and any
  exception escaping `main`.  `workbook.save` itself is assumed to
  succeed; no claim concerns a failing save.
-/

namespace ExcelAutomation

/-- One step of CPython `max(xs, key=len)`: the accumulator is replaced
only when the new element is strictly longer. -/
def stepMax (acc y : String) : String :=
  if acc.length < y.length then y else acc

/-- One step of CPython `min(xs, key=len)`: the accumulator is replaced
only when the new element is strictly shorter. -/
def stepMin (acc y : String) : String :=
  if y.length < acc.length then y else acc

/-- `max(x :: xs, key=len)` as the source computes it. -/
def maxByLen (x : String) (xs : List String) : String :=
  xs.foldl stepMax x

/-- `min(x :: xs, key=len)` as the source computes it. -/
def minByLen (x : String) (xs : List String) : String :=
  xs.foldl stepMin x

/-- Source `find_longest_shortest` (lines 106-121): `(None, None)` on an
empty list, otherwise `(max(suggestions, key=len), min(suggestions, key=len))`. -/
def find_longest_shortest : List String → Option String × Option String
  | [] => (none, none)
  | x :: xs => (some (maxByLen x xs), some (minByLen x xs))

theorem foldl_stepMax_mem : ∀ (xs : List String) (x : String),
    xs.foldl stepMax x ∈ x :: xs := by
  intro xs
  induction xs with
  | nil => intro x; simp
  | cons y ys ih =>
    intro x
    have h := ih (stepMax x y)
    simp only [List.foldl_cons]
    rcases List.mem_cons.mp h with h1 | h1
    · rw [h1]
      unfold stepMax
      by_cases hc : x.length < y.length
      · simp [hc]
      · simp [hc]
    · exact List.mem_cons_of_mem _ (List.mem_cons_of_mem _ h1)

theorem foldl_stepMax_ge : ∀ (xs : List String) (x : String),
    ∀ y ∈ x :: xs, y.length ≤ (xs.foldl stepMax x).length := by
  intro xs
  induction xs with
  | nil => intro x y hy; simp at hy; simp [hy]
  | cons z zs ih =>
    intro x y hy
    simp only [List.foldl_cons]
    have hstep : x.length ≤ (stepMax x z).length ∧ z.length ≤ (stepMax x z).length := by
      unfold stepMax
      by_cases hc : x.length < y.length
      · by_cases hc2 : x.length < z.length
        · simp [hc2, Nat.le_of_lt hc2]
        · simp [hc2]; omega
      · by_cases hc2 : x.length < z.length
        · simp [hc2, Nat.le_of_lt hc2]
        · simp [hc2]; omega
    rcases List.mem_cons.mp hy with h1 | h1
    · rw [h1]
      exact le_trans hstep.1 (ih (stepMax x z) _ (List.mem_cons_self _ _))
    · rcases List.mem_cons.mp h1 with h2 | h2
      · rw [h2]
        exact le_trans hstep.2 (ih (stepMax x z) _ (List.mem_cons_self _ _))
      · exact ih (stepMax x z) y (List.mem_cons_of_mem _ h2)

theorem foldl_stepMax_keep : ∀ (xs : List String) (x : String),
    (∀ y ∈ xs, y.length ≤ x.length) → xs.foldl stepMax x = x := by
  intro xs
  induction xs with
  | nil => intro x _; rfl
  | cons z zs ih =>
    intro x h
    simp only [List.foldl_cons]
    have hz : z.length ≤ x.length := h z (List.mem_cons_self _ _)
    have hstep : stepMax x z = x := by
      unfold stepMax
      simp [Nat.not_lt.mpr hz]
    rw [hstep]
    exact ih x (fun y hy => h y (List.mem_cons_of_mem _ hy))

theorem foldl_stepMin_mem : ∀ (xs : List String) (x : String),
    xs.foldl stepMin x ∈ x :: xs := by
  intro xs
  induction xs with
  | nil => intro x; simp
  | cons y ys ih =>
    intro x
    have h := ih (stepMin x y)
    simp only [List.foldl_cons]
    rcases List.mem_cons.mp h with h1 | h1
    · rw [h1]
      unfold stepMin
      by_cases hc : y.length < x.length
      · simp [hc]
      · simp [hc]
    · exact List.mem_cons_of_mem _ (List.mem_cons_of_mem _ h1)

theorem foldl_stepMin_le : ∀ (xs : List String) (x : String),
    ∀ y ∈ x :: xs, (xs.foldl stepMin x).length ≤ y.length := by
  intro xs
  induction xs with
  | nil => intro x y hy; simp at hy; simp [hy]
  | cons z zs ih =>
    intro x y hy
    simp only [List.foldl_cons]
    have hstep : (stepMin x z).length ≤ x.length ∧ (stepMin x z).length ≤ z.length := by
      unfold stepMin
      by_cases hc2 : z.length < x.length
      · simp [hc2]; omega
      · simp [hc2]; omega
    rcases List.mem_cons.mp hy with h1 | h1
    · rw [h1]
      exact le_trans (ih (stepMin x z) _ (List.mem_cons_self _ _)) hstep.1
    · rcases List.mem_cons.mp h1 with h2 | h2
      · rw [h2]
        exact le_trans (ih (stepMin x z) _ (List.mem_cons_self _ _)) hstep.2
      · exact ih (stepMin x z) y (List.mem_cons_of_mem _ h2)

theorem foldl_stepMin_keep : ∀ (xs : List String) (x : String),
    (∀ y ∈ xs, x.length ≤ y.length) → xs.foldl stepMin x = x := by
  intro xs
  induction xs with
  | nil => intro x _; rfl
  | cons z zs ih =>
    intro x h
    simp only [List.foldl_cons]
    have hz : x.length ≤ z.length := h z (List.mem_cons_self _ _)
    have hstep : stepMin x z = x := by
      unfold stepMin
      simp [Nat.not_lt.mpr hz]
    rw [hstep]
    exact ih x (fun y hy => h y (List.mem_cons_of_mem _ hy))

theorem foldl_first_max (l₁ : List String) (x a : String) (l₂ : List String)
    (hx : x.length < a.length)
    (h₁ : ∀ y ∈ l₁, y.length < a.length)
    (h₂ : ∀ y ∈ l₂, y.length ≤ a.length) :
    (l₁ ++ a :: l₂).foldl stepMax x = a := by
  rw [List.foldl_append]
  have hm : l₁.foldl stepMax x ∈ x :: l₁ := foldl_stepMax_mem l₁ x
  have hlt : (l₁.foldl stepMax x).length < a.length := by
    rcases List.mem_cons.mp hm with h | h
    · rw [h]; exact hx
    · exact h₁ _ h
  simp only [List.foldl_cons]
  have hstep : stepMax (l₁.foldl stepMax x) a = a := by
    simp only [stepMax]
    rw [if_pos hlt]
  rw [hstep]
  exact foldl_stepMax_keep l₂ a h₂

theorem foldl_first_min (l₁ : List String) (x a : String) (l₂ : List String)
    (hx : a.length < x.length)
    (h₁ : ∀ y ∈ l₁, a.length < y.length)
    (h₂ : ∀ y ∈ l₂, a.length ≤ y.length) :
    (l₁ ++ a :: l₂).foldl stepMin x = a := by
  rw [List.foldl_append]
  have hm : l₁.foldl stepMin x ∈ x :: l₁ := foldl_stepMin_mem l₁ x
  have hlt : a.length < (l₁.foldl stepMin x).length := by
    rcases List.mem_cons.mp hm with h | h
    · rw [h]; exact hx
    · exact h₁ _ h
  simp only [List.foldl_cons]
  have hstep : stepMin (l₁.foldl stepMin x) a = a := by
    simp only [stepMin]
    rw [if_pos hlt]
  rw [hstep]
  exact foldl_stepMin_keep l₂ a h₂

/-- A spreadsheet cell value as openpyxl may hold it: absent (`None`),
a string, an integer, or a boolean. -/
inductive Value where
  | none
  | str (s : String)
  | int (n : Int)
  | bool (b : Bool)
deriving DecidableEq, Repr

/-- Python truthiness of a cell value, as tested by `if not keyword`
(line 140): `None`, `""`, `0` and `False` are falsy. -/
def Value.truthy : Value → Bool
  | .none => false
  | .str s => !(s = "")
  | .int n => !(n = 0)
  | .bool b => b

/-- Python `str()` of a cell value, used in console prints. -/
def Value.toDisplay : Value → String
  | .none => "None"
  | .str s => s
  | .int n => toString n
  | .bool b => if b then "True" else "False"

/-- Writing an `Option String` into a cell (`sheet.cell(...).value = x`):
Python `None` clears the cell, a string is stored as a string. -/
def Value.ofOpt : Option String → Value
  | Option.none => Value.none
  | Option.some s => Value.str s

/-- Python `x or "None"` applied to a longest/shortest result (lines
148-149): `None` and `""` print as `"None"`. -/
def orNoneDisplay : Option String → String
  | Option.none => "None"
  | Option.some s => if s = "" then "None" else s

/-- One spreadsheet row: column 1 keyword, columns 2 and 3 outputs. -/
structure Row where
  col1 : Value
  col2 : Value
  col3 : Value
deriving DecidableEq, Repr

/-- A worksheet: its rows in order; position 0 is row 1 (the header),
so `max_row` is the list length and the loop runs over the tail. -/
abbrev Sheet := List Row

/-- A workbook: association list of sheet name to sheet, in order. -/
abbrev Workbook := List (String × Sheet)

/-- `workbook.sheetnames`. -/
def sheetnames (wb : Workbook) : List String := wb.map Prod.fst

/-- `workbook[name]` as a total lookup. -/
def lookupSheet : Workbook → String → Option Sheet
  | [], _ => Option.none
  | (n, s) :: rest, name =>
    if n = name then Option.some s else lookupSheet rest name

/-- In-place mutation of the sheet named `name` inside the workbook. -/
def updateSheet : Workbook → String → Sheet → Workbook
  | [], _, _ => []
  | (n, s) :: rest, name, s2 =>
    if n = name then (n, s2) :: rest else (n, s) :: updateSheet rest name s2

/-- Outcome of the browser round trip for one keyword: either the raw
texts of the `li.sbct span` elements, or an exception raised anywhere in
the navigate/wait/collect steps. -/
inductive FetchOutcome where
  | ok (texts : List String)
  | error (msg : String)

/-- Source `get_google_suggestions` (lines 73-103): on success the element
texts are stripped and empty ones dropped
(`[el.text.strip() for el in elements if el.text.strip()]`); any exception
is caught, an error line is printed, and `[]` is returned.  Returns
(suggestions, console prints). -/
def get_google_suggestions (f : Value → FetchOutcome) (keyword : Value) :
    List String × List String :=
  match f keyword with
  | .ok texts => ((texts.map String.trim).filter (fun t => !(t = "")), [])
  | .error e =>
      ([], ["Error while fetching suggestions for \x27" ++ keyword.toDisplay
              ++ "\x27: " ++ e])

/-- Source `get_today_sheet` (lines 52-70): prints the weekday, raises if
no sheet of that name exists.  Returns (console prints, sheet or error). -/
def get_today_sheet (dayName : String) (wb : Workbook) :
    List String × Except String Sheet :=
  (["Today is: " ++ dayName],
   match lookupSheet wb dayName with
   | Option.some s => Except.ok s
   | Option.none =>
       Except.error ("Sheet \x27" ++ dayName ++ "\x27 not found in Excel file."))

/-- The body of the row loop in `main` (lines 137-152) for one row:
skip when the keyword cell is falsy, otherwise fetch suggestions, take
extremes, print, and write columns 2 and 3.  Returns (updated row,
console prints). -/
def processRow (f : Value → FetchOutcome) (r : Row) : Row × List String :=
  if r.col1.truthy then
    let fetched := get_google_suggestions f r.col1
    let ls := find_longest_shortest fetched.1
    ({ col1 := r.col1, col2 := Value.ofOpt ls.1, col3 := Value.ofOpt ls.2 },
     ("\nProcessing keyword: " ++ r.col1.toDisplay) ::
       fetched.2 ++
       ["Longest Suggestion: " ++ orNoneDisplay ls.1,
        "Shortest Suggestion: " ++ orNoneDisplay ls.2])
  else (r, [])

/-- The row loop over rows 2..max_row, i.e. over the tail of the sheet. -/
def runRows (f : Value → FetchOutcome) : List Row → List Row × List String
  | [] => ([], [])
  | r :: rest =>
    let pr := processRow f r
    let rr := runRows f rest
    (pr.1 :: rr.1, pr.2 ++ rr.2)

/-- The whole iteration on a sheet: the header row (row 1) is untouched,
rows 2..max_row go through the loop body. -/
def runSheet (f : Value → FetchOutcome) : Sheet → Sheet × List String
  | [] => ([], [])
  | h :: t =>
    let rr := runRows f t
    (h :: rr.1, rr.2)

/-- Outcomes of the external calls of one run: whether `setup_browser`
raises, whether `load_workbook("excel_file.xlsx")` raises or what it
loads, the current weekday name, and the browser outcome per keyword. -/
structure Env where
  browserLaunch : Except String Unit
  workbookLoad : Except String Workbook
  dayName : String
  fetch : Value → FetchOutcome

/-- Observable outcome of a run of `main`: console lines in order,
the documents saved (one entry per `workbook.save` call), the number of
`driver.quit()` calls, and any exception escaping `main`. -/
structure RunResult where
  prints : List String
  saves : List Workbook
  quitCalls : Nat
  raised : Option String
deriving Repr

/-- Result of the `try` block of `main` (lines 132-154): prints, saves,
the exception reaching the `except` clause (if any), and whether the
local variable `driver` was bound (i.e. `setup_browser` returned). -/
def mainTry (env : Env) : List String × List Workbook × Option String × Bool :=
  match env.browserLaunch with
  | .error e => ([], [], Option.some e, false)
  | .ok _ =>
    match env.workbookLoad with
    | .error e => ([], [], Option.some e, true)
    | .ok wb =>
      let gt := get_today_sheet env.dayName wb
      match gt.2 with
      | .error e => (gt.1, [], Option.some e, true)
      | .ok sheet =>
        let rs := runSheet env.fetch sheet
        (gt.1 ++ rs.2, [updateSheet wb env.dayName rs.1], Option.none, true)

/-- Source `main` (lines 124-161).  The `except` clause prints
"Script failed: ..." for any exception from the `try` block.  The
`finally` clause evaluates `driver.quit()`: when `setup_browser` raised,
`driver` was never bound, so this raises a `NameError` out of `main` and
the completion line is never printed; otherwise the browser is quit and
the completion line is printed. -/
def main (env : Env) : RunResult :=
  let tb := mainTry env
  let failPrints :=
    match tb.2.2.1 with
    | Option.some e => tb.1 ++ ["Script failed: " ++ e]
    | Option.none => tb.1
  if tb.2.2.2 then
    { prints := failPrints ++ ["\nBrowser closed. Script completed successfully."],
      saves := tb.2.1, quitCalls := 1, raised := Option.none }
  else
    { prints := failPrints, saves := tb.2.1, quitCalls := 0,
      raised := Option.some "NameError: name \x27driver\x27 is not defined" }

theorem getLast_append_single : ∀ (l : List String) (a : String),
    (l ++ [a]).getLast? = Option.some a := by
  intro l a
  exact List.getLast?_concat l

/-- C1: for every non-empty list of suggestion strings,
`find_longest_shortest` returns `(some longest, some shortest)` where both
returned strings are elements of the input list, the length of `longest`
is ≥ every element's length, and the length of `shortest` is ≤ every
element's length. -/
theorem C1_extremes_sound (l : List String) (h : l ≠ []) :
    ∃ lo sh, find_longest_shortest l = (Option.some lo, Option.some sh) ∧
      lo ∈ l ∧ sh ∈ l ∧ ∀ x ∈ l, x.length ≤ lo.length ∧ sh.length ≤ x.length := by
  match l with
  | [] => exact absurd rfl h
  | x :: xs =>
    refine ⟨maxByLen x xs, minByLen x xs, rfl, ?_, ?_, ?_⟩
    · exact foldl_stepMax_mem xs x
    · exact foldl_stepMin_mem xs x
    · intro y hy
      exact ⟨foldl_stepMax_ge xs x y hy, foldl_stepMin_le xs x y hy⟩

/-- Witness for C1 at the concrete list `["ab", "c", "def"]`. -/
theorem C1_extremes_sound_witness :
    ∃ lo sh,
      find_longest_shortest ["ab", "c", "def"] = (Option.some lo, Option.some sh) ∧
      lo ∈ ["ab", "c", "def"] ∧ sh ∈ ["ab", "c", "def"] ∧
      ∀ x ∈ ["ab", "c", "def"], x.length ≤ lo.length ∧ sh.length ≤ x.length :=
  C1_extremes_sound ["ab", "c", "def"] (by decide)

/-- C5: for the empty suggestion list, `find_longest_shortest` returns
`(None, None)`. -/
theorem C5_empty_list_none :
    find_longest_shortest [] = (Option.none, Option.none) := rfl

/-- C6: `find_longest_shortest` is a stable (first-encountered) max/min:
whenever the list splits as `l₁ ++ a :: l₂` with everything before `a`
strictly shorter (resp. strictly longer) and everything after no longer
(resp. no shorter), the longest (resp. shortest) component is `a`; in
particular on `["ab", "cd"]` both components are `"ab"`, and on a
singleton `[s]` both components are `s`. -/
theorem C6_first_encountered_ties :
    (∀ (l₁ : List String) (a : String) (l₂ : List String),
        (∀ y ∈ l₁, y.length < a.length) → (∀ y ∈ l₂, y.length ≤ a.length) →
        (find_longest_shortest (l₁ ++ a :: l₂)).1 = Option.some a) ∧
    (∀ (l₁ : List String) (a : String) (l₂ : List String),
        (∀ y ∈ l₁, a.length < y.length) → (∀ y ∈ l₂, a.length ≤ y.length) →
        (find_longest_shortest (l₁ ++ a :: l₂)).2 = Option.some a) ∧
    find_longest_shortest ["ab", "cd"] = (Option.some "ab", Option.some "ab") ∧
    (∀ s, find_longest_shortest [s] = (Option.some s, Option.some s)) := by
  refine ⟨?_, ?_, by decide, fun s => rfl⟩
  · intro l₁ a l₂ h₁ h₂
    match l₁ with
    | [] =>
      show Option.some (maxByLen a l₂) = Option.some a
      exact congrArg _ (foldl_stepMax_keep l₂ a h₂)
    | x :: l₁x =>
      show Option.some (maxByLen x (l₁x ++ a :: l₂)) = Option.some a
      refine congrArg _ (foldl_first_max l₁x x a l₂ ?_ ?_ h₂)
      · exact h₁ x (List.mem_cons_self _ _)
      · exact fun y hy => h₁ y (List.mem_cons_of_mem _ hy)
  · intro l₁ a l₂ h₁ h₂
    match l₁ with
    | [] =>
      show Option.some (minByLen a l₂) = Option.some a
      exact congrArg _ (foldl_stepMin_keep l₂ a h₂)
    | x :: l₁x =>
      show Option.some (minByLen x (l₁x ++ a :: l₂)) = Option.some a
      refine congrArg _ (foldl_first_min l₁x x a l₂ ?_ ?_ h₂)
      · exact h₁ x (List.mem_cons_self _ _)
      · exact fun y hy => h₁ y (List.mem_cons_of_mem _ hy)

/-- Witness for C6: `"bc"` is the first-encountered maximum of
`["a", "bc", "xy"]`. -/
theorem C6_first_encountered_ties_witness :
    (find_longest_shortest (["a"] ++ "bc" :: ["xy"])).1 = Option.some "bc" :=
  C6_first_encountered_ties.1 ["a"] "bc" ["xy"] (by decide) (by decide)

theorem processRow_skip (f : Value → FetchOutcome) (r : Row)
    (h : r.col1.truthy = false) : processRow f r = (r, []) := by
  unfold processRow
  rw [h]
  rfl

theorem runRows_cons (f : Value → FetchOutcome) (r : Row) (t : List Row) :
    runRows f (r :: t) =
      ((processRow f r).1 :: (runRows f t).1,
       (processRow f r).2 ++ (runRows f t).2) := rfl

/-- C7: a row whose keyword cell is empty (absent or the empty string) is
skipped: `processRow` leaves it unchanged, writes nothing and prints
nothing, and the loop still processes all subsequent rows. -/
theorem C7_empty_keyword_skipped :
    (∀ (f : Value → FetchOutcome) (r : Row),
        (r.col1 = Value.none ∨ r.col1 = Value.str "") → processRow f r = (r, [])) ∧
    (∀ (f : Value → FetchOutcome) (r : Row) (t : List Row),
        (r.col1 = Value.none ∨ r.col1 = Value.str "") →
        runRows f (r :: t) = (r :: (runRows f t).1, (runRows f t).2)) := by
  have h1 : ∀ (f : Value → FetchOutcome) (r : Row),
      (r.col1 = Value.none ∨ r.col1 = Value.str "") → processRow f r = (r, []) := by
    intro f r h
    refine processRow_skip f r ?_
    rcases h with h | h <;> rw [h] <;> rfl
  refine ⟨h1, ?_⟩
  intro f r t h
  rw [runRows_cons, h1 f r h]
  rfl

/-- Witness for C7: a row with an absent keyword passes through unchanged. -/
theorem C7_empty_keyword_skipped_witness :
    processRow (fun _ => FetchOutcome.ok ["x"])
        { col1 := Value.none, col2 := Value.str "old2", col3 := Value.str "old3" } =
      ({ col1 := Value.none, col2 := Value.str "old2", col3 := Value.str "old3" }, []) :=
  C7_empty_keyword_skipped.1 _ _ (Or.inl rfl)

/-- C9: the skip condition is Python truthiness, not only emptiness:
`None`, `""`, `0` and `False` are all falsy and all skipped (while a
non-empty string or a non-zero integer is processed-truthy); any row with
a falsy keyword cell passes through `processRow` unchanged with no
prints, and in particular a row whose keyword is the integer `0` is never
processed by the loop. -/
theorem C9_truthiness_skip :
    (Value.none.truthy = false ∧ (Value.str "").truthy = false ∧
     (Value.int 0).truthy = false ∧ (Value.bool false).truthy = false ∧
     (Value.str "a").truthy = true ∧ (Value.int 7).truthy = true) ∧
    (∀ (f : Value → FetchOutcome) (r : Row),
        r.col1.truthy = false → processRow f r = (r, [])) ∧
    (∀ (f : Value → FetchOutcome) (c2 c3 : Value) (t : List Row),
        runRows f ({ col1 := Value.int 0, col2 := c2, col3 := c3 } :: t) =
          (({ col1 := Value.int 0, col2 := c2, col3 := c3 } : Row) :: (runRows f t).1,
           (runRows f t).2)) := by
  refine ⟨by decide, processRow_skip, ?_⟩
  intro f c2 c3 t
  have hz : (Value.int 0).truthy = false := rfl
  rw [runRows_cons, processRow_skip f { col1 := Value.int 0, col2 := c2, col3 := c3 } hz]
  rfl

/-- Witness for C9: a row whose keyword cell holds the integer `0` is
skipped exactly like an empty cell. -/
theorem C9_truthiness_skip_witness :
    processRow (fun _ => FetchOutcome.ok ["x"])
        { col1 := Value.int 0, col2 := Value.none, col3 := Value.none } =
      ({ col1 := Value.int 0, col2 := Value.none, col3 := Value.none }, []) :=
  C9_truthiness_skip.2.1 _ _ rfl

/-- C3: a failure inside `get_google_suggestions` is caught locally and
yields the empty suggestion list; the corresponding row then gets `None`
written into both column 2 and column 3 (the keyword column is untouched),
and the loop still processes the subsequent rows. -/
theorem C3_fetch_failure_is_local :
    (∀ (f : Value → FetchOutcome) (k : Value) (e : String),
        f k = FetchOutcome.error e → (get_google_suggestions f k).1 = []) ∧
    (∀ (f : Value → FetchOutcome) (r : Row) (e : String),
        r.col1.truthy = true → f r.col1 = FetchOutcome.error e →
        (processRow f r).1 =
          { col1 := r.col1, col2 := Value.none, col3 := Value.none }) ∧
    (∀ (f : Value → FetchOutcome) (r : Row) (t : List Row) (e : String),
        r.col1.truthy = true → f r.col1 = FetchOutcome.error e →
        (runRows f (r :: t)).1 =
          ({ col1 := r.col1, col2 := Value.none, col3 := Value.none } : Row)
            :: (runRows f t).1) := by
  have h1 : ∀ (f : Value → FetchOutcome) (k : Value) (e : String),
      f k = FetchOutcome.error e → (get_google_suggestions f k).1 = [] := by
    intro f k e h
    unfold get_google_suggestions
    rw [h]
  have h2 : ∀ (f : Value → FetchOutcome) (r : Row) (e : String),
      r.col1.truthy = true → f r.col1 = FetchOutcome.error e →
      (processRow f r).1 =
        { col1 := r.col1, col2 := Value.none, col3 := Value.none } := by
    intro f r e ht he
    unfold processRow
    rw [ht]
    simp only [if_true]
    unfold get_google_suggestions
    rw [he]
    rfl
  refine ⟨h1, h2, ?_⟩
  intro f r t e ht he
  rw [runRows_cons]
  show (processRow f r).1 :: (runRows f t).1 = _
  rw [h2 f r e ht he]

/-- Witness for C3: a timed-out fetch for keyword "coffee" leaves the
keyword in place and clears columns 2 and 3. -/
theorem C3_fetch_failure_is_local_witness :
    (processRow (fun _ => FetchOutcome.error "timeout")
        { col1 := Value.str "coffee", col2 := Value.str "a", col3 := Value.str "b" }).1 =
      { col1 := Value.str "coffee", col2 := Value.none, col3 := Value.none } :=
  C3_fetch_failure_is_local.2.1 _ _ "timeout" rfl rfl

/-- C4: when today's sheet is missing from the loaded workbook, `main`
aborts before any row is processed: nothing is saved and the console shows
only the weekday line, the failure line, and the completion line (no
"Processing keyword" line ever appears). -/
theorem C4_missing_sheet_aborts (env : Env) (wb : Workbook)
    (h1 : env.browserLaunch = Except.ok ())
    (h2 : env.workbookLoad = Except.ok wb)
    (h3 : lookupSheet wb env.dayName = Option.none) :
    (main env).saves = [] ∧
    (main env).prints =
      ["Today is: " ++ env.dayName,
       "Script failed: " ++
         ("Sheet \x27" ++ env.dayName ++ "\x27 not found in Excel file."),
       "\nBrowser closed. Script completed successfully."] := by
  obtain ⟨bl, wl, day, f⟩ := env
  dsimp only at h1 h2 h3 ⊢
  subst h1
  subst h2
  simp [main, mainTry, get_today_sheet, h3]

/-- Workbook with no "Monday" sheet, used to witness C4. -/
def missingSheetWb : Workbook := [("Tuesday", [])]

/-- Run whose workbook lacks today's sheet, used to witness C4. -/
def missingSheetEnv : Env :=
  { browserLaunch := Except.ok (),
    workbookLoad := Except.ok missingSheetWb,
    dayName := "Monday",
    fetch := fun _ => FetchOutcome.ok [] }

/-- Witness for C4 on a concrete workbook lacking the "Monday" sheet. -/
theorem C4_missing_sheet_aborts_witness :
    (main missingSheetEnv).saves = [] ∧
    (main missingSheetEnv).prints =
      ["Today is: " ++ "Monday",
       "Script failed: " ++
         ("Sheet \x27" ++ "Monday" ++ "\x27 not found in Excel file."),
       "\nBrowser closed. Script completed successfully."] :=
  C4_missing_sheet_aborts missingSheetEnv missingSheetWb rfl rfl rfl

/-- C8: the document is saved exactly once per run, after the row loop,
whatever the per-keyword fetch outcomes were; and it is never saved when
browser launch, workbook load, or sheet lookup fails. -/
theorem C8_save_exactly_once :
    (∀ (env : Env) (wb : Workbook) (sheet : Sheet),
        env.browserLaunch = Except.ok () → env.workbookLoad = Except.ok wb →
        lookupSheet wb env.dayName = Option.some sheet →
        (main env).saves =
          [updateSheet wb env.dayName (runSheet env.fetch sheet).1]) ∧
    (∀ (env : Env) (e : String),
        env.browserLaunch = Except.error e → (main env).saves = []) ∧
    (∀ (env : Env) (e : String),
        env.browserLaunch = Except.ok () → env.workbookLoad = Except.error e →
        (main env).saves = []) ∧
    (∀ (env : Env) (wb : Workbook),
        env.browserLaunch = Except.ok () → env.workbookLoad = Except.ok wb →
        lookupSheet wb env.dayName = Option.none → (main env).saves = []) := by
  refine ⟨?_, ?_, ?_, ?_⟩
  · intro env wb sheet h1 h2 h3
    obtain ⟨bl, wl, day, f⟩ := env
    dsimp only at h1 h2 h3 ⊢
    subst h1
    subst h2
    simp [main, mainTry, get_today_sheet, h3]
  · intro env e h1
    obtain ⟨bl, wl, day, f⟩ := env
    dsimp only at h1 ⊢
    subst h1
    rfl
  · intro env e h1 h2
    obtain ⟨bl, wl, day, f⟩ := env
    dsimp only at h1 h2 ⊢
    subst h1
    subst h2
    rfl
  · intro env wb h1 h2 h3
    obtain ⟨bl, wl, day, f⟩ := env
    dsimp only at h1 h2 h3 ⊢
    subst h1
    subst h2
    simp [main, mainTry, get_today_sheet, h3]

/-- Sheet used to witness C8: a header row and one keyword row. -/
def happySheet : Sheet :=
  [{ col1 := Value.str "Keyword", col2 := Value.str "Longest",
     col3 := Value.str "Shortest" },
   { col1 := Value.str "coffee", col2 := Value.none, col3 := Value.none }]

/-- Workbook used to witness C8. -/
def happyWb : Workbook := [("Monday", happySheet)]

/-- Fully successful run used to witness C8. -/
def happyEnv : Env :=
  { browserLaunch := Except.ok (),
    workbookLoad := Except.ok happyWb,
    dayName := "Monday",
    fetch := fun _ =>
      FetchOutcome.ok ["coffee shop", "coffee near me", "coffee beans"] }

/-- Witness for C8 on a concrete successful run. -/
theorem C8_save_exactly_once_witness :
    (main happyEnv).saves =
      [updateSheet happyWb "Monday" (runSheet happyEnv.fetch happySheet).1] :=
  C8_save_exactly_once.1 happyEnv happyWb happySheet rfl rfl rfl

/-- Run whose browser fails to launch, exhibiting the cleanup bug. -/
def launchFailEnv : Env :=
  { browserLaunch := Except.error "chrome binary not found",
    workbookLoad := Except.ok [("Monday", [])],
    dayName := "Monday",
    fetch := fun _ => FetchOutcome.ok [] }

/-- C2: evaluation of the code at the failing input.  When
`setup_browser` raises, the local variable `driver` was never bound, yet
the `finally` block evaluates `driver.quit()`: a `NameError` escapes
`main`, no quit happens, and the completion line is never printed — the
run ends abnormally, contrary to the claim. -/
theorem C2_launch_failure_crashes :
    (main launchFailEnv).raised =
      Option.some "NameError: name \x27driver\x27 is not defined" ∧
    (main launchFailEnv).quitCalls = 0 ∧
    (main launchFailEnv).prints =
      ["Script failed: " ++ "chrome binary not found"] :=
  ⟨rfl, rfl, rfl⟩

theorem mainTry_bound (env : Env) (h : env.browserLaunch = Except.ok ()) :
    (mainTry env).2.2.2 = true := by
  obtain ⟨bl, wl, day, f⟩ := env
  dsimp only at h
  subst h
  cases wl with
  | error e => rfl
  | ok wb =>
    cases hls : lookupSheet wb day with
    | none => simp [mainTry, get_today_sheet, hls]
    | some sheet => simp [mainTry, get_today_sheet, hls]

theorem main_prints_bound (env : Env) (h : (mainTry env).2.2.2 = true) :
    (main env).prints =
      (match (mainTry env).2.2.1 with
        | Option.some e => (mainTry env).1 ++ ["Script failed: " ++ e]
        | Option.none => (mainTry env).1) ++
        ["\nBrowser closed. Script completed successfully."] := by
  simp only [main]
  rw [h]
  simp

/-- C10 (amended): on every run where the browser session was opened, the
final console line is "Browser closed. Script completed successfully.",
whether or not the run actually succeeded. -/
theorem C10_final_line_after_launch (env : Env)
    (h : env.browserLaunch = Except.ok ()) :
    (main env).prints.getLast? =
      Option.some "\nBrowser closed. Script completed successfully." := by
  rw [main_prints_bound env (mainTry_bound env h)]
  exact getLast_append_single _ _

/-- Run whose workbook load fails after a successful browser launch,
used to witness the amended C10. -/
def loadFailEnv : Env :=
  { browserLaunch := Except.ok (),
    workbookLoad := Except.error "excel_file.xlsx missing",
    dayName := "Monday",
    fetch := fun _ => FetchOutcome.ok [] }

/-- Witness for the amended C10: the completion line ends the console
output even though the run failed (workbook missing). -/
theorem C10_final_line_after_launch_witness :
    (main loadFailEnv).prints.getLast? =
      Option.some "\nBrowser closed. Script completed successfully." :=
  C10_final_line_after_launch loadFailEnv rfl

/-- Second launch-failure run, for the C10 counterexample. -/
def launchFailEnvB : Env :=
  { browserLaunch := Except.error "no chrome",
    workbookLoad := Except.ok [],
    dayName := "Friday",
    fetch := fun _ => FetchOutcome.error "x" }

/-- C10 counterexample: on a run where the browser fails to launch, the
final console line is not the completion message — the `finally` block
raises `NameError` before reaching the print. -/
theorem C10_counterexample_launch_failure :
    ¬ ((main launchFailEnvB).prints.getLast? =
        Option.some "\nBrowser closed. Script completed successfully.") := by
  decide

end ExcelAutomation
